import Mathlib

/-!
Shallow embedding of the cache / fetch / geocoding service of the repository
(`src/graph_service.py`, `src/app.py`) and proofs about it.

Python strings are modelled as Lean `String`; all string primitives used by the
code (`str.strip`, `str.split`, `str.lower`, `str.endswith`, slicing) are
re-implemented structurally over `String.data` so that every definition is
executable and kernel-reducible.  Machine floats that only ever carry parsed
decimal literals and bounding-box comparisons are modelled as `ℚ`.
-/

namespace GraphService

/-- Python `str.isspace` characters relevant to `\s` / `str.strip` (ASCII fragment). -/
def pyIsSpace (c : Char) : Bool :=
  c = ' ' || c = '\t' || c = '\n' || c = '\r' || c = '\x0b' || c = '\x0c'

/-- `str.strip()` on a character list: drop leading and trailing whitespace. -/
def trimChars (cs : List Char) : List Char :=
  ((cs.dropWhile pyIsSpace).reverse.dropWhile pyIsSpace).reverse

/-- Python `str.strip()`. -/
def pyStrip (s : String) : String := ⟨trimChars s.data⟩

/-- Python `str.lower()` (ASCII fragment; the code only lowercases Latin city names). -/
def pyLower (s : String) : String := ⟨s.data.map Char.toLower⟩

/-- Python `needle in haystack` for single-character needles. -/
def containsChar (s : String) (c : Char) : Bool := s.data.any (fun d => d = c)

/-- Python `str.split(",")` on character lists. -/
def splitCommaChars : List Char → List (List Char)
  | [] => [[]]
  | c :: rest =>
    if c = ',' then [] :: splitCommaChars rest
    else
      match splitCommaChars rest with
      | [] => [[c]]
      | h :: t => (c :: h) :: t

/-- Python `str.split(",")`. -/
def pySplitComma (s : String) : List String := (splitCommaChars s.data).map String.mk

/-- Python `str.endswith(suf)`. -/
def pyEndsWith (s suf : String) : Bool := suf.data.reverse.isPrefixOf s.data.reverse

/-- Python slicing `s[:-n]` (drop the last `n` characters). -/
def pyDropRight (s : String) (n : Nat) : String := ⟨s.data.take (s.data.length - n)⟩

/-- Membership in Python's `\w` class, ASCII fragment: alphanumerics and underscore.
(Python's `\w` additionally matches non-ASCII word characters; the claims only
exercise ASCII city names.) -/
def isWordChar (c : Char) : Bool := c.isAlphanum || c = '_'

/-- A character matched by the class `[-\s]` of the second regex in `_sanitize_name`. -/
def isSpaceOrDash (c : Char) : Bool := pyIsSpace c || c = '-'

/-- `re.sub(r'[^\w\s-]', '', name)`: keep only word characters, whitespace and dashes. -/
def sanitizeKeep (cs : List Char) : List Char :=
  cs.filter (fun c => isWordChar c || pyIsSpace c || c = '-')

/-- `re.sub(r'[-\s]+', '_', name)`: replace each maximal run of whitespace/dashes by
one underscore.  The boolean flag records whether we are inside such a run. -/
def collapseRuns : List Char → Bool → List Char
  | [], _ => []
  | c :: rest, inRun =>
    if isSpaceOrDash c then
      if inRun then collapseRuns rest true else '_' :: collapseRuns rest true
    else c :: collapseRuns rest false

/-- Python `str.strip('_')`. -/
def stripUnderscores (cs : List Char) : List Char :=
  ((cs.dropWhile (fun c => c = '_')).reverse.dropWhile (fun c => c = '_')).reverse

/-- `DataService._sanitize_name` (graph_service.py lines 251-254):
`re.sub` of non-word characters to nothing, then runs of `[-\s]` to `_`,
then `strip('_')` and truncation to 100 characters. -/
def sanitize_name (name : String) : String :=
  ⟨(stripUnderscores (collapseRuns (sanitizeKeep name.data) false)).take 100⟩

lemma mem_collapseRuns {c : Char} {cs : List Char} {b : Bool}
    (h : c ∈ collapseRuns cs b) : c = '_' ∨ (c ∈ cs ∧ isSpaceOrDash c = false) := by
  induction cs generalizing b with
  | nil => simp [collapseRuns] at h
  | cons d rest ih =>
    by_cases hd : isSpaceOrDash d = true
    · rw [collapseRuns, if_pos hd] at h
      cases b with
      | true =>
        rcases ih h with h1 | ⟨h2, h3⟩
        · exact Or.inl h1
        · exact Or.inr ⟨List.mem_cons_of_mem _ h2, h3⟩
      | false =>
        rcases List.mem_cons.mp h with rfl | h'
        · exact Or.inl rfl
        · rcases ih h' with h1 | ⟨h2, h3⟩
          · exact Or.inl h1
          · exact Or.inr ⟨List.mem_cons_of_mem _ h2, h3⟩
    · rw [collapseRuns, if_neg hd] at h
      rcases List.mem_cons.mp h with rfl | h'
      · exact Or.inr ⟨List.mem_cons_self _ _, by simpa using hd⟩
      · rcases ih h' with h1 | ⟨h2, h3⟩
        · exact Or.inl h1
        · exact Or.inr ⟨List.mem_cons_of_mem _ h2, h3⟩

lemma mem_stripUnderscores {c : Char} {cs : List Char}
    (h : c ∈ stripUnderscores cs) : c ∈ cs := by
  unfold stripUnderscores at h
  rw [List.mem_reverse] at h
  have h1 := (List.dropWhile_sublist (l := (cs.dropWhile fun c => c = '_').reverse)
    (p := fun c => c = '_')).subset h
  rw [List.mem_reverse] at h1
  exact (List.dropWhile_sublist (l := cs) (p := fun c => c = '_')).subset h1

/-- C4: for every input string, `_sanitize_name` (a total function: it cannot raise)
returns a string of at most 100 characters, each of which is a word character
(underscore included). -/
theorem sanitize_name_safe (s : String) :
    (sanitize_name s).length ≤ 100 ∧ (sanitize_name s).data.all isWordChar = true := by
  constructor
  · show ((stripUnderscores (collapseRuns (sanitizeKeep s.data) false)).take 100).length ≤ 100
    rw [List.length_take]
    exact min_le_left _ _
  · rw [List.all_eq_true]
    intro c hc
    have hc' : c ∈ (stripUnderscores (collapseRuns (sanitizeKeep s.data) false)).take 100 := hc
    have h1 : c ∈ stripUnderscores (collapseRuns (sanitizeKeep s.data) false) :=
      (List.take_subset _ _) hc'
    have h2 := mem_stripUnderscores h1
    rcases mem_collapseRuns h2 with rfl | ⟨h3, h4⟩
    · rfl
    · have h5 := List.mem_filter.mp h3
      have h6 : (isWordChar c || pyIsSpace c || c = '-') = true := h5.2
      rcases Bool.or_eq_true_iff.mp h6 with h7 | h7
      · rcases Bool.or_eq_true_iff.mp h7 with h8 | h8
        · exact h8
        · exfalso
          simp only [isSpaceOrDash, Bool.or_eq_false_iff] at h4
          rw [h8] at h4
          exact absurd h4.1 (by simp)
      · exfalso
        simp only [isSpaceOrDash, Bool.or_eq_false_iff] at h4
        rw [h7] at h4
        exact absurd h4.2 (by simp)

/-- C4 at a concrete all-punctuation input. -/
theorem sanitize_name_safe_witness :
    (sanitize_name "!!!???...").length ≤ 100 ∧
      (sanitize_name "!!!???...").data.all isWordChar = true :=
  sanitize_name_safe "!!!???..."

/-! ## Data model: bundles, blobs, filesystem and Redis stores -/

/-- The road graph returned by `ox.graph_from_place`: an external object of which
the service only observes `len(G.nodes)` and `len(G.edges)`. -/
structure RoadGraph where
  nodes : List Nat
  edges : List (Nat × Nat)
deriving DecidableEq, Repr

/-- Building footprints (`ox.features_from_place` result / empty `gpd.GeoDataFrame`);
the service only observes `len(buildings)`. -/
abbrev Buildings := List String

/-- The `stats` dictionary of a city bundle. -/
structure Stats where
  nodes : Nat
  edges : Nat
  buildings : Nat
deriving DecidableEq, Repr

/-- The CityDataBundle dictionary assembled in `_download_city_data`
(graph_service.py lines 102-113).  `params?` is absent (`none`) in bundles built
by this service; the HTTP handler reads it with an empty default
(`data.get("params", {})` in app.py line 66). -/
structure Bundle where
  road_graph : RoadGraph
  buildings : Buildings
  no_fly_zones : List String
  city_name : String
  timestamp : ℚ
  stats : Stats
  params? : Option (List (String × String))
deriving DecidableEq, Repr

/-- Contents of a serialized blob: either a pickled bundle (pickle round-trips
faithfully per its contract) or bytes on which `pickle.load` raises. -/
inductive Blob where
  | bundleBlob (b : Bundle)
  | corrupt
deriving DecidableEq, Repr

/-- The local cache directory / Redis store: an association list from path/key
to blob (most recent write first). -/
abbrev Store := List (String × Blob)

/-- Read a path/key from a store. -/
def storeGet (st : Store) (k : String) : Option Blob :=
  (st.find? (fun p => p.1 = k)).map (fun p => p.2)

/-- Overwrite a path/key in a store (`open(path, 'wb')` / `redis.set`). -/
def storeSet (st : Store) (k : String) (v : Blob) : Store :=
  (k, v) :: st.filter (fun p => ¬ p.1 = k)

/-- Remove a path from a store. -/
def storeErase (st : Store) (k : String) : Store :=
  st.filter (fun p => ¬ p.1 = k)

/-- `os.remove`: raises `FileNotFoundError` when the path does not exist. -/
def osRemove (fs : Store) (p : String) : Except String Store :=
  if (storeGet fs p).isSome then .ok (storeErase fs p)
  else .error ("FileNotFoundError: " ++ p)

lemma storeGet_storeSet (st : Store) (k : String) (v : Blob) :
    storeGet (storeSet st k v) k = some v := by
  simp [storeGet, storeSet, List.find?]

/-- A progress event as delivered to `_update_progress` observers. -/
structure ProgressEvent where
  stage : String
  percentage : Nat
  message : String
deriving DecidableEq, Repr

/-- The external collaborators of the fetch path: `ox.graph_from_place`,
`ox.features_from_place` (either may raise, modelled as `Except`) and
`time.time()`. -/
structure Oracles where
  graphFromPlace : String → Except String RoadGraph
  featuresFromPlace : String → Except String Buildings
  now : ℚ

/-- Mutable state of a `DataService` instance: local cache directory contents
and the optional Redis connection (`none` when the startup ping failed). -/
structure ServiceState where
  fs : Store
  redis : Option Store

/-! ## `_load_from_cache` and `_download_city_data` -/

/-- `DataService._load_from_cache` (graph_service.py lines 238-245): open and
unpickle; on any failure delete the file if it still exists and re-raise.
Returns the outcome together with the resulting filesystem. -/
def load_from_cache (fs : Store) (cache_file : String) : Except String Bundle × Store :=
  match storeGet fs cache_file with
  | some (Blob.bundleBlob b) => (.ok b, fs)
  | some Blob.corrupt => (.error "UnpicklingError", storeErase fs cache_file)
  | none => (.error ("FileNotFoundError: " ++ cache_file), fs)

/-- The error message of graph_service.py line 90, naming the city. -/
def roadErrorMsg (city_name : String) : String :=
  "Не удалось загрузить дорожную сеть для города: " ++ city_name

/-- Result of `_download_city_data`: the returned bundle or raised error, the
progress events emitted, and the filesystem / Redis store after the call. -/
structure DlOutcome where
  result : Except String Bundle
  events : List ProgressEvent
  fs : Store
  redis : Option Store

/-- The six progress events of a successful fetch (graph_service.py lines 73-125). -/
def downloadEvents : List ProgressEvent :=
  [⟨"download", 0, "Начало загрузки данных"⟩,
   ⟨"download", 20, "Загрузка дорожной сети"⟩,
   ⟨"download", 50, "Загрузка зданий"⟩,
   ⟨"download", 80, "Загрузка запретных зон"⟩,
   ⟨"download", 90, "Сохранение в кэш"⟩,
   ⟨"download", 100, "Данные загружены"⟩]

/-- The events emitted when the road-network step fails: the outer handler reports
an `error` event and re-raises (graph_service.py lines 128-131). -/
def downloadErrorEvents (msg : String) : List ProgressEvent :=
  [⟨"download", 0, "Начало загрузки данных"⟩,
   ⟨"download", 20, "Загрузка дорожной сети"⟩,
   ⟨"error", 0, "Ошибка: " ++ msg⟩]

/-- `DataService._download_city_data` (graph_service.py lines 72-131).
The query loop iterates over the single-element list `[city_name]`: the graph is
assigned even when empty (the `break` is skipped, but there is no further
iteration).  Building failures are non-fatal (empty `GeoDataFrame` default);
`_get_no_fly_zones` is a stub returning `[]`.  On success the bundle is pickled
to `cache_file` and best-effort written to Redis. -/
def download_city_data (o : Oracles) (fs : Store) (rd : Option Store)
    (city_name cache_file redis_key : String) : DlOutcome :=
  let road : Option RoadGraph :=
    match o.graphFromPlace city_name with
    | .error _ => none
    | .ok g => some g
  match road with
  | none =>
    { result := .error (roadErrorMsg city_name),
      events := downloadErrorEvents (roadErrorMsg city_name), fs := fs, redis := rd }
  | some g =>
    if g.nodes.length = 0 then
      { result := .error (roadErrorMsg city_name),
        events := downloadErrorEvents (roadErrorMsg city_name), fs := fs, redis := rd }
    else
      let buildings : Buildings :=
        match o.featuresFromPlace city_name with
        | .ok bs => bs
        | .error _ => []
      let data : Bundle :=
        { road_graph := g, buildings := buildings, no_fly_zones := [],
          city_name := city_name, timestamp := o.now,
          stats := ⟨g.nodes.length, g.edges.length, buildings.length⟩,
          params? := none }
      { result := .ok data,
        events := downloadEvents,
        fs := storeSet fs cache_file (Blob.bundleBlob data),
        redis := rd.map (fun r => storeSet r redis_key (Blob.bundleBlob data)) }

/-! ## `get_city_data` -/

/-- The cache directory of the default `DataService` constructor. -/
def cacheDir : String := "cache_data"

/-- Result of `get_city_data`: outcome, events, new state and how many times the
download path (`_download_city_data`) was entered. -/
structure GetOutcome where
  result : Except String Bundle
  events : List ProgressEvent
  st : ServiceState
  downloads : Nat

/-- `DataService.get_city_data` (graph_service.py lines 46-70): Redis tier first
(corrupt Redis blobs are caught and fall through, after their progress event was
already emitted), then the local cache file — on deserialization failure the
except-branch logs and calls `os.remove(cache_file)` (line 68); note
`_load_from_cache` has already deleted the file, so this second removal raises —
then the download path. -/
def get_city_data (o : Oracles) (st : ServiceState) (city_name : String) : GetOutcome :=
  let normalized := pyStrip city_name
  let cache_file := cacheDir ++ "/" ++ sanitize_name normalized ++ ".pkl"
  let redis_key := "drone_planner:city:" ++ sanitize_name normalized
  let redisStep : Option Bundle × List ProgressEvent :=
    match st.redis with
    | none => (none, [])
    | some r =>
      match storeGet r redis_key with
      | some (Blob.bundleBlob b) => (some b, [⟨"cache", 100, "Загрузка из Redis"⟩])
      | some Blob.corrupt => (none, [⟨"cache", 100, "Загрузка из Redis"⟩])
      | none => (none, [])
  match redisStep with
  | (some b, evs) => { result := .ok b, events := evs, st := st, downloads := 0 }
  | (none, evs0) =>
    if (storeGet st.fs cache_file).isSome then
      let evs := evs0 ++ [⟨"cache", 100, "Загрузка из кэша"⟩]
      match load_from_cache st.fs cache_file with
      | (.ok b, fs1) =>
        { result := .ok b, events := evs, st := { st with fs := fs1 }, downloads := 0 }
      | (.error _, fs1) =>
        match osRemove fs1 cache_file with
        | .error msg =>
          { result := .error msg, events := evs, st := { st with fs := fs1 }, downloads := 0 }
        | .ok fs2 =>
          let d := download_city_data o fs2 st.redis normalized cache_file redis_key
          { result := d.result, events := evs ++ d.events,
            st := ⟨d.fs, d.redis⟩, downloads := 1 }
    else
      let d := download_city_data o st.fs st.redis normalized cache_file redis_key
      { result := d.result, events := evs0 ++ d.events,
        st := ⟨d.fs, d.redis⟩, downloads := 1 }

/-! ## Fetch-path theorems (C7, C8, C9) -/

/-- C7: if the road-network query raises, or returns a graph with zero nodes, the
fetch aborts with an error whose message names the city and this error is the
result handed to the caller; a failure of the building-footprint query is
non-fatal and the bundle is assembled with an empty feature collection. -/
theorem download_aborts_naming_city_and_buildings_nonfatal (o : Oracles) (fs : Store)
    (rd : Option Store) (city_name cache_file redis_key : String) :
    (((∃ e, o.graphFromPlace city_name = .error e) ∨
        (∃ g, o.graphFromPlace city_name = .ok g ∧ g.nodes = [])) →
      (download_city_data o fs rd city_name cache_file redis_key).result
          = .error (roadErrorMsg city_name) ∧
        ∃ p, roadErrorMsg city_name = p ++ city_name)
    ∧ (∀ g err, o.graphFromPlace city_name = .ok g → g.nodes ≠ [] →
        o.featuresFromPlace city_name = .error err →
        ∃ b, (download_city_data o fs rd city_name cache_file redis_key).result = .ok b ∧
          b.buildings = []) := by
  constructor
  · rintro (⟨e, he⟩ | ⟨g, hg, hnodes⟩)
    · exact ⟨by simp [download_city_data, he], _, rfl⟩
    · refine ⟨?_, _, rfl⟩
      simp [download_city_data, hg, hnodes]
  · intro g err hg hnodes hfeat
    have hlen : ¬ g.nodes.length = 0 := by
      intro h0
      exact hnodes (List.length_eq_zero.mp h0)
    refine ⟨⟨g, [], [], city_name, o.now, ⟨g.nodes.length, g.edges.length, 0⟩, none⟩, ?_, rfl⟩
    simp [download_city_data, hg, hfeat, hlen]

/-- Oracle for a fetch where the road-network query itself raises. -/
def oracleErr : Oracles :=
  { graphFromPlace := fun _ => .error "ConnectionError",
    featuresFromPlace := fun _ => .ok ["b1"], now := 0 }

/-- Oracle for a successful fetch (three nodes, one edge, one building). -/
def oracleA : Oracles :=
  { graphFromPlace := fun _ => .ok ⟨[1, 2, 3], [(1, 2)]⟩,
    featuresFromPlace := fun _ => .ok ["b1"], now := 0 }

/-- Oracle for a fetch where only the building-footprint query raises. -/
def oracleNoFeat : Oracles :=
  { graphFromPlace := fun _ => .ok ⟨[5], []⟩,
    featuresFromPlace := fun _ => .error "FeaturesUnavailable", now := 0 }

/-- C7 witness: a raising road query aborts with the city named in the message;
a raising buildings query still yields a bundle, with no buildings. -/
theorem download_aborts_witness :
    ((download_city_data oracleErr [] none "Volgograd" "f.pkl" "k").result
        = .error (roadErrorMsg "Volgograd") ∧
      ∃ p, roadErrorMsg "Volgograd" = p ++ "Volgograd")
    ∧ (∃ b, (download_city_data oracleNoFeat [] none "Volgograd" "f.pkl" "k").result = .ok b ∧
        b.buildings = []) :=
  ⟨(download_aborts_naming_city_and_buildings_nonfatal oracleErr [] none
      "Volgograd" "f.pkl" "k").1 (Or.inl ⟨"ConnectionError", rfl⟩),
   (download_aborts_naming_city_and_buildings_nonfatal oracleNoFeat [] none
      "Volgograd" "f.pkl" "k").2 ⟨[5], []⟩ "FeaturesUnavailable" rfl (by decide) rfl⟩

/-- C8: a successful fetch emits exactly the six progress events with percentages
0, 20, 50, 80, 90, 100 in that order, each with a nonempty stage label and a
nonempty message, and nothing else. -/
theorem download_progress_milestones (o : Oracles) (fs : Store) (rd : Option Store)
    (city_name cache_file redis_key : String) (b : Bundle)
    (h : (download_city_data o fs rd city_name cache_file redis_key).result = .ok b) :
    (download_city_data o fs rd city_name cache_file redis_key).events = downloadEvents
    ∧ downloadEvents.map (fun e => e.percentage) = [0, 20, 50, 80, 90, 100]
    ∧ downloadEvents.all (fun e => !(e.stage = "") && !(e.message = "")) = true := by
  refine ⟨?_, by decide, by decide⟩
  cases hg : o.graphFromPlace city_name with
  | error e => simp [download_city_data, hg] at h
  | ok g =>
    by_cases hlen : g.nodes.length = 0
    · simp [download_city_data, hg, hlen] at h
    · simp [download_city_data, hg, hlen]

/-- C8 witness at a concrete successful fetch. -/
theorem download_progress_milestones_witness :
    (download_city_data oracleA [] none "Volgograd" "f.pkl" "k").events = downloadEvents
    ∧ downloadEvents.map (fun e => e.percentage) = [0, 20, 50, 80, 90, 100]
    ∧ downloadEvents.all (fun e => !(e.stage = "") && !(e.message = "")) = true :=
  download_progress_milestones oracleA [] none "Volgograd" "f.pkl" "k"
    ⟨⟨[1, 2, 3], [(1, 2)]⟩, ["b1"], [], "Volgograd", 0, ⟨3, 1, 1⟩, none⟩ rfl

/-- C9: a bundle produced by a successful fetch was serialized to the local
cache file, and reloading that file through `_load_from_cache` yields a bundle
with the same `stats` and `city_name` (indeed the same bundle). -/
theorem cache_roundtrip_preserves_stats (o : Oracles) (fs : Store) (rd : Option Store)
    (city_name cache_file redis_key : String) (b : Bundle)
    (h : (download_city_data o fs rd city_name cache_file redis_key).result = .ok b) :
    ∃ b2, load_from_cache (download_city_data o fs rd city_name cache_file redis_key).fs
          cache_file
        = (.ok b2, (download_city_data o fs rd city_name cache_file redis_key).fs)
      ∧ b2.stats = b.stats ∧ b2.city_name = b.city_name := by
  cases hg : o.graphFromPlace city_name with
  | error e => simp [download_city_data, hg] at h
  | ok g =>
    by_cases hlen : g.nodes.length = 0
    · simp [download_city_data, hg, hlen] at h
    · refine ⟨b, ?_, rfl, rfl⟩
      have hfs : (download_city_data o fs rd city_name cache_file redis_key).fs
          = storeSet fs cache_file (Blob.bundleBlob b) := by
        simp only [download_city_data, hg, if_neg hlen] at h ⊢
        rw [show b = _ from (Except.ok.injEq _ _).mp h.symm]
      rw [hfs, load_from_cache, storeGet_storeSet]

/-- C9 witness at a concrete successful fetch. -/
theorem cache_roundtrip_witness :
    ∃ b2, load_from_cache
          (download_city_data oracleA [] none "Volgograd" "f.pkl" "k").fs "f.pkl"
        = (.ok b2, (download_city_data oracleA [] none "Volgograd" "f.pkl" "k").fs)
      ∧ b2.stats = Bundle.stats ⟨⟨[1, 2, 3], [(1, 2)]⟩, ["b1"], [], "Volgograd", 0, ⟨3, 1, 1⟩, none⟩
      ∧ b2.city_name
          = Bundle.city_name ⟨⟨[1, 2, 3], [(1, 2)]⟩, ["b1"], [], "Volgograd", 0, ⟨3, 1, 1⟩, none⟩ :=
  cache_roundtrip_preserves_stats oracleA [] none "Volgograd" "f.pkl" "k"
    ⟨⟨[1, 2, 3], [(1, 2)]⟩, ["b1"], [], "Volgograd", 0, ⟨3, 1, 1⟩, none⟩ rfl

/-! ## The corrupt-cache path (C1) -/

/-- A service state whose Redis tier is unavailable and whose local cache holds a
corrupt blob for the city "Volgograd". -/
def corruptCacheState : ServiceState :=
  ⟨[("cache_data/Volgograd.pkl", Blob.corrupt)], none⟩

/-- C1: evaluating `get_city_data` on a corrupt local cache file.  The corrupt
file is deleted inside `_load_from_cache`; the except-branch of `get_city_data`
then calls `os.remove(cache_file)` a second time, which raises
`FileNotFoundError`, so the download path is never entered (zero re-fetches) and
no bundle is returned — contradicting both the claim and the code's own log
message "перезагружаем данные". -/
theorem corrupt_cache_load_crashes :
    (get_city_data oracleA corruptCacheState "Volgograd").result
        = .error ("FileNotFoundError: " ++ "cache_data/Volgograd.pkl")
    ∧ (get_city_data oracleA corruptCacheState "Volgograd").downloads = 0
    ∧ storeGet (get_city_data oracleA corruptCacheState "Volgograd").st.fs
        "cache_data/Volgograd.pkl" = none := by
  refine ⟨?_, ?_, ?_⟩ <;> rfl

/-! ## The HTTP handler `GET /api/city` (app.py lines 42-71)

`app.py` imports its `DataService` from a `data_service` module that is not part
of `src/`; only this caller is.  Modelled from the spec: the service behind the
handler is the cache/fetch chain specified in §4.1 and embedded above as
`get_city_data` (the spec's `network_type`/`simplify` query parameters are
forwarded to the service and do not alter the modelled control flow). -/

/-- The JSON object assembled by the handler (app.py lines 63-68). -/
structure CityResponse where
  city_name : String
  stats : Stats
  params : List (String × String)
  progress : List ProgressEvent
deriving DecidableEq, Repr

/-- Outcome of one request: a 200 JSON response, or an `HTTPException`. -/
inductive HandlerResult where
  | ok (r : CityResponse)
  | httpError (status : Nat) (detail : String)
deriving DecidableEq, Repr

/-- State shared across requests: the module-level `data_service` singleton with
its `progress_callbacks` list (callback identities), and each callback's
collected `progress_events` closure list. -/
structure AppState where
  svc : ServiceState
  callbacks : List Nat
  collected : Nat → List ProgressEvent
  nextId : Nat

/-- `_update_progress` delivery: every registered callback receives every emitted
event, in order (graph_service.py lines 42-44). -/
def deliver (cbs : List Nat) (col : Nat → List ProgressEvent)
    (evs : List ProgressEvent) : Nat → List ProgressEvent :=
  fun i => if i ∈ cbs then col i ++ evs else col i

/-- The handler of `GET /api/city` (app.py lines 42-71): create a fresh
`progress_events` list and its appending callback, register it via
`add_progress_callback` (the callback is never removed), call the data service,
and either return `{city_name, stats, params, progress}` or map any exception to
an `HTTPException(500, str(e))`. -/
def handle_get_city (o : Oracles) (a : AppState) (city : String) :
    HandlerResult × AppState :=
  let cb := a.nextId
  let cbs := a.callbacks ++ [cb]
  let col0 : Nat → List ProgressEvent := fun i => if i = cb then [] else a.collected i
  let out := get_city_data o a.svc city
  let col1 := deliver cbs col0 out.events
  let a1 : AppState := ⟨out.st, cbs, col1, cb + 1⟩
  match out.result with
  | .ok data =>
    (.ok ⟨data.city_name, data.stats, data.params?.getD [], col1 cb⟩, a1)
  | .error e => (.httpError 500 e, a1)

lemma deliver_fresh (a : AppState) (evs : List ProgressEvent) :
    deliver (a.callbacks ++ [a.nextId])
      (fun i => if i = a.nextId then [] else a.collected i) evs a.nextId = evs := by
  unfold deliver
  rw [if_pos (List.mem_append_right _ (List.mem_singleton_self _))]
  simp

/-- C2: whenever the data service produces a bundle, the handler answers with a
JSON object carrying the bundle's `city_name`, its `stats` (nodes/edges/buildings
counts), the `params` echo, and exactly the progress events emitted during this
request; an `HTTPException` with status 500 and the exception's message is
produced exactly when the service raised. -/
theorem handler_returns_summary_or_500 (o : Oracles) (a : AppState) (city : String) :
    (∀ b, (get_city_data o a.svc city).result = .ok b →
      (handle_get_city o a city).1
          = .ok ⟨b.city_name, b.stats, b.params?.getD [], (get_city_data o a.svc city).events⟩)
    ∧ (∀ e, (get_city_data o a.svc city).result = .error e →
      (handle_get_city o a city).1 = .httpError 500 e) := by
  constructor
  · intro b hb
    have hfresh := deliver_fresh a (get_city_data o a.svc city).events
    simp only [handle_get_city, hb, hfresh]
  · intro e he
    simp only [handle_get_city, he]

/-- The initial application state: empty cache directory, Redis unavailable, no
registered callbacks. -/
def appState0 : AppState := ⟨⟨[], none⟩, [], fun _ => [], 0⟩

/-- C2 witness: a concrete request for an uncached city served by a successful
fetch. -/
theorem handler_returns_summary_witness :
    (handle_get_city oracleA appState0 "Volgograd").1
        = .ok ⟨Bundle.city_name ⟨⟨[1, 2, 3], [(1, 2)]⟩, ["b1"], [], "Volgograd", 0, ⟨3, 1, 1⟩, none⟩,
               Bundle.stats ⟨⟨[1, 2, 3], [(1, 2)]⟩, ["b1"], [], "Volgograd", 0, ⟨3, 1, 1⟩, none⟩,
               (Bundle.params? ⟨⟨[1, 2, 3], [(1, 2)]⟩, ["b1"], [], "Volgograd", 0, ⟨3, 1, 1⟩, none⟩).getD [],
               (get_city_data oracleA appState0.svc "Volgograd").events⟩ :=
  (handler_returns_summary_or_500 oracleA appState0 "Volgograd").1
    ⟨⟨[1, 2, 3], [(1, 2)]⟩, ["b1"], [], "Volgograd", 0, ⟨3, 1, 1⟩, none⟩ rfl

/-! ## Cross-request callback leakage (C3) -/

/-- First request: "CityA" through the shared singleton, callback id 0. -/
def run1 : HandlerResult × AppState := handle_get_city oracleA appState0 "CityA"

/-- Second request: "CityB" through the same singleton, callback id 1. -/
def run2 : HandlerResult × AppState := handle_get_city oracleA run1.2 "CityB"

/-- C3 counterexample: the callback registered by the first request has collected
6 events after its own request, but 12 after the second request — the second
request's fetch invoked the observer registered during the first request, because
`add_progress_callback` registrations on the module-level singleton are never
removed. -/
theorem earlier_callback_invoked_by_later_request :
    (run1.2.collected 0).length = 6 ∧ (run2.2.collected 0).length = 12 := by
  constructor <;> rfl

/-- C3 amended: any callback registered before a request is invoked by that
request's cache lookup or fetch; its collected list is extended by exactly the
events the request emits. -/
theorem earlier_callback_receives_later_events (o : Oracles) (a : AppState)
    (city : String) (cb : Nat) (h1 : a.callbacks.contains cb = true)
    (h2 : cb ≠ a.nextId) :
    (handle_get_city o a city).2.collected cb
      = a.collected cb ++ (get_city_data o a.svc city).events := by
  have hmem : cb ∈ a.callbacks := by
    simpa [List.contains, List.elem_eq_mem] using h1
  have hc : cb ∈ a.callbacks ++ [a.nextId] := List.mem_append_left _ hmem
  have hcol : (handle_get_city o a city).2.collected
      = deliver (a.callbacks ++ [a.nextId])
          (fun i => if i = a.nextId then [] else a.collected i)
          (get_city_data o a.svc city).events := by
    cases hres : (get_city_data o a.svc city).result <;>
      simp only [handle_get_city, hres]
  rw [hcol]
  unfold deliver
  rw [if_pos hc]
  simp [h2]

/-- C3 amended witness: callback 0 of the first request receives all events of
the second request. -/
theorem earlier_callback_receives_later_events_witness :
    run2.2.collected 0
      = run1.2.collected 0 ++ (get_city_data oracleA run1.2.svc "CityB").events :=
  earlier_callback_receives_later_events oracleA run1.2 "CityB" 0 (by rfl) (by decide)

/-! ## Geocoding: `address_to_coords` and `_validate_coords_in_city` -/

/-- A latitude/longitude pair.  The service only parses decimal literals and
compares against decimal bounding boxes, so coordinates are modelled exactly
as rationals. -/
abbrev Coord := ℚ × ℚ

/-- Numeric value of a digit character. -/
def digitVal (c : Char) : Nat := c.toNat - '0'.toNat

/-- Value of a digit string. -/
def digitsToNat (cs : List Char) : Nat := cs.foldl (fun a c => a * 10 + digitVal c) 0

/-- Python `float(s)` on plain decimal literals (optional sign, digits, one
optional point; `float` also accepts exponents, `inf`/`nan` and underscore
separators, which the address parser never relies on): `none` models the
`ValueError` branch. -/
def parsePyFloat (s : String) : Option ℚ :=
  let cs := trimChars s.data
  let signAndRest : ℚ × List Char :=
    match cs with
    | '-' :: rest => (-1, rest)
    | '+' :: rest => (1, rest)
    | _ => (1, cs)
  let intPart := signAndRest.2.takeWhile Char.isDigit
  let rest := signAndRest.2.dropWhile Char.isDigit
  match rest with
  | [] =>
    if intPart.isEmpty then none
    else some (signAndRest.1 * (digitsToNat intPart : ℚ))
  | '.' :: frac =>
    if frac.all Char.isDigit && !(intPart.isEmpty && frac.isEmpty) then
      some (signAndRest.1 *
        ((digitsToNat intPart : ℚ) + (digitsToNat frac : ℚ) / ((10 : ℚ) ^ frac.length)))
    else none
  | _ => none

/-- The coordinate fast path of `address_to_coords` (graph_service.py lines
144-150): if the (stripped) address contains a comma, split on commas, strip and
`float`-parse every part; when this yields exactly two floats in latitude range
[-90, 90] and longitude range [-180, 180], they are the result. -/
def directCoords (addr : String) : Option Coord :=
  if containsChar addr ',' then
    match ((pySplitComma addr).map pyStrip).mapM parsePyFloat with
    | some [la, lo] =>
      if -90 ≤ la ∧ la ≤ 90 ∧ -180 ≤ lo ∧ lo ≤ 180 then some (la, lo) else none
    | _ => none
  else none

/-- City-name normalization of graph_service.py lines 153-157: strip, and remove
a trailing ", Russia". -/
def stripCityRussia (cn : String) : String :=
  if pyEndsWith cn ", Russia" then pyStrip (pyDropRight cn 8) else cn

/-- The city name actually used for validation: reassigned to its stripped form
only when truthy after stripping (graph_service.py lines 153-157); `none` models
a `None` argument. -/
def cityForValidation (city_name : Option String) : Option String :=
  match city_name with
  | some cn => if pyStrip cn = "" then some cn else some (stripCityRussia (pyStrip cn))
  | none => none

/-- The ordered query variants (graph_service.py lines 160-173). -/
def buildVariants (addr : String) (city_name : Option String) : List String :=
  match city_name with
  | some cn0 =>
    if pyStrip cn0 = "" then
      [addr, addr ++ ", Россия", addr ++ ", Russia", addr ++ ", РФ"]
    else
      let cn := stripCityRussia (pyStrip cn0)
      [addr ++ ", " ++ cn, addr ++ ", " ++ cn ++ ", Россия",
       addr ++ ", " ++ cn ++ ", Russia", addr ++ ", " ++ cn ++ ", РФ"]
  | none => [addr, addr ++ ", Россия", addr ++ ", Russia", addr ++ ", РФ"]

/-- One bounding-box entry of the `city_bounds` table. -/
structure CityBound where
  key : String
  latLo : ℚ
  latHi : ℚ
  lonLo : ℚ
  lonHi : ℚ

/-- The `city_bounds` lookup table (graph_service.py lines 214-223), in insertion
order. -/
def city_bounds : List CityBound :=
  [⟨"волгоград", 48.5, 49.0, 44.0, 45.0⟩,
   ⟨"volgograd", 48.5, 49.0, 44.0, 45.0⟩,
   ⟨"москва", 55.5, 55.9, 37.3, 37.9⟩,
   ⟨"moscow", 55.5, 55.9, 37.3, 37.9⟩,
   ⟨"санкт-петербург", 59.8, 60.1, 30.0, 30.7⟩,
   ⟨"st petersburg", 59.8, 60.1, 30.0, 30.7⟩,
   ⟨"st. petersburg", 59.8, 60.1, 30.0, 30.7⟩,
   ⟨"petersburg", 59.8, 60.1, 30.0, 30.7⟩]

/-- Python `needle in haystack` on strings (substring containment). -/
def substrOf (needle hay : List Char) : Bool :=
  (List.range (hay.length + 1)).any (fun i => needle.isPrefixOf (hay.drop i))

/-- `DataService._validate_coords_in_city` (graph_service.py lines 212-236):
look up the first table key that is a substring of the lowercased, stripped city
name; inside the box → `True`, outside → `False`; no matching key → `True`. -/
def validate_coords_in_city (coords : Coord) (city_name : String) : Bool :=
  let normalized := pyStrip (pyLower city_name)
  match city_bounds.find? (fun b => substrOf b.key.data normalized.data) with
  | some b =>
    decide (b.latLo ≤ coords.1 ∧ coords.1 ≤ b.latHi ∧
            b.lonLo ≤ coords.2 ∧ coords.2 ≤ b.lonHi)
  | none => true

/-- The validation applied to a geocoder hit: only when the (possibly reassigned)
city name is truthy (graph_service.py lines 184-188). -/
def validateFor (city_name : Option String) : Coord → Bool :=
  match cityForValidation city_name with
  | some cn => if cn = "" then fun _ => true else fun c => validate_coords_in_city c cn
  | none => fun _ => true

/-- The two geocoders of the service, in dictionary insertion order
(graph_service.py lines 19-22). -/
def geocoderNames : List String := ["nominatim", "nominatim_ru"]

/-- The provider × variant schedule: providers outer, variants inner
(graph_service.py lines 175-176). -/
def geoSchedule (variants : List String) : List (String × String) :=
  (geocoderNames.map (fun g => variants.map (fun v => (g, v)))).flatten

/-- Result of the geocoding chain: the coordinates found (if any) and the
provider/variant calls actually made, in order. -/
structure GeoOutcome where
  result : Option Coord
  calls : List (String × String)
deriving DecidableEq, Repr

/-- The fallback loop of `address_to_coords` (graph_service.py lines 175-196):
per call, a raising provider or an empty result means "try next"; a hit is
returned iff it validates, otherwise the chain continues. -/
def geoLoop (geocode : String → String → Except String (Option Coord))
    (validate : Coord → Bool) : List (String × String) → GeoOutcome
  | [] => ⟨none, []⟩
  | (g, v) :: rest =>
    match geocode g v with
    | .error _ =>
      let r := geoLoop geocode validate rest
      ⟨r.result, (g, v) :: r.calls⟩
    | .ok none =>
      let r := geoLoop geocode validate rest
      ⟨r.result, (g, v) :: r.calls⟩
    | .ok (some c) =>
      if validate c then ⟨some c, [(g, v)]⟩
      else
        let r := geoLoop geocode validate rest
        ⟨r.result, (g, v) :: r.calls⟩

/-- `DataService.address_to_coords` (graph_service.py lines 136-196): `None` or
blank address → `None` at once; then the coordinate fast path; then the
provider × variant fallback chain with bounding-box validation. -/
def address_to_coords (geocode : String → String → Except String (Option Coord))
    (address : Option String) (city_name : Option String) : GeoOutcome :=
  match address with
  | none => ⟨none, []⟩
  | some a0 =>
    if pyStrip a0 = "" then ⟨none, []⟩
    else
      let addr := pyStrip a0
      match directCoords addr with
      | some c => ⟨some c, []⟩
      | none =>
        geoLoop geocode (validateFor city_name) (geoSchedule (buildVariants addr city_name))

/-- C10: a `None`, empty or all-whitespace address yields `None` immediately,
with no geocoding call (graph_service.py lines 138-139; `not address` and
`not address.strip()` both reduce to an empty stripped form). -/
theorem blank_address_returns_none (geocode : String → String → Except String (Option Coord))
    (city_name : Option String) (address : Option String)
    (h : address = none ∨ ∃ a, address = some a ∧ pyStrip a = "") :
    address_to_coords geocode address city_name = ⟨none, []⟩ := by
  rcases h with rfl | ⟨a, rfl, ha⟩
  · rfl
  · simp [address_to_coords, ha]

/-- A geocoder that always reports "no result". -/
def geoNone : String → String → Except String (Option Coord) := fun _ _ => .ok none

/-- C10 witness: the all-whitespace address. -/
theorem blank_address_returns_none_witness :
    address_to_coords geoNone none none = ⟨none, []⟩
    ∧ address_to_coords geoNone (some "   ") (some "Volgograd") = ⟨none, []⟩ :=
  ⟨blank_address_returns_none geoNone none none (Or.inl rfl),
   blank_address_returns_none geoNone (some "Volgograd") (some "   ")
     (Or.inr ⟨"   ", rfl, by decide⟩)⟩

/-- C5: an address that strips and splits into exactly two comma-separated
`float`-parsable parts, the first within [-90, 90] and the second within
[-180, 180], is returned directly, with zero geocoding calls. -/
theorem coordinate_address_skips_geocoding
    (geocode : String → String → Except String (Option Coord))
    (city_name : Option String) (addr : String) (la lo : ℚ)
    (hc : containsChar (pyStrip addr) ',' = true)
    (hp : ((pySplitComma (pyStrip addr)).map pyStrip).mapM parsePyFloat = some [la, lo])
    (hla : -90 ≤ la ∧ la ≤ 90) (hlo : -180 ≤ lo ∧ lo ≤ 180) :
    address_to_coords geocode (some addr) city_name = ⟨some (la, lo), []⟩ := by
  have hne : ¬ pyStrip addr = "" := by
    intro h0
    rw [h0] at hc
    exact absurd hc (by decide)
  have hdc : directCoords (pyStrip addr) = some (la, lo) := by
    unfold directCoords
    simp only [hc, if_true]
    rw [hp]
    exact if_pos ⟨hla.1, hla.2, hlo.1, hlo.2⟩
  simp only [address_to_coords, if_neg hne, hdc]

/-- C5 witness: the spec's example address "48.7, 44.5". -/
theorem coordinate_address_witness :
    address_to_coords geoNone (some "48.7, 44.5") none = ⟨some (487/10, 89/2), []⟩ :=
  coordinate_address_skips_geocoding geoNone none "48.7, 44.5" (487/10) (89/2)
    (by rfl) (by with_unfolding_all rfl) (by norm_num) (by norm_num)

/-- The Volgograd bounding box configured in `city_bounds`. -/
def inVolgogradBox (c : Coord) : Prop :=
  48.5 ≤ c.1 ∧ c.1 ≤ 49.0 ∧ 44.0 ≤ c.2 ∧ c.2 ≤ 45.0

lemma validate_volgograd_iff (c : Coord) :
    validate_coords_in_city c "Volgograd" = true ↔ inVolgogradBox c := by
  have hfind : city_bounds.find?
      (fun b => substrOf b.key.data (pyStrip (pyLower "Volgograd")).data)
        = some ⟨"volgograd", 48.5, 49.0, 44.0, 45.0⟩ := by rfl
  simp only [validate_coords_in_city]
  rw [hfind]
  rw [decide_eq_true_eq]
  exact Iff.rfl

lemma geoLoop_exhausts (geocode : String → String → Except String (Option Coord))
    (validate : Coord → Bool) (pairs : List (String × String))
    (h : ∀ g v c, (g, v) ∈ pairs → geocode g v = .ok (some c) → validate c = false) :
    geoLoop geocode validate pairs = ⟨none, pairs⟩ := by
  induction pairs with
  | nil => rfl
  | cons p rest ih =>
    obtain ⟨g, v⟩ := p
    have hrest : ∀ g' v' c, (g', v') ∈ rest → geocode g' v' = .ok (some c) →
        validate c = false :=
      fun g' v' c hm => h g' v' c (List.mem_cons_of_mem _ hm)
    cases hg : geocode g v with
    | error e => simp [geoLoop, hg, ih hrest]
    | ok oc =>
      cases oc with
      | none => simp [geoLoop, hg, ih hrest]
      | some c =>
        have hv : validate c = false := h g v c (List.mem_cons_self _ _) hg
        simp [geoLoop, hg, hv, ih hrest]

/-- C6: calling `address_to_coords` with city "Volgograd, Russia" (the country
suffix is stripped before validation): every provider hit outside the configured
Volgograd box is rejected and the chain moves on; when nothing validates, all
2 providers × 4 variants are attempted and the call returns `None`; and any city
whose lowercased name matches no `city_bounds` key always validates. -/
theorem volgograd_out_of_bounds_rejected
    (geocode : String → String → Except String (Option Coord)) (addr : String)
    (hne : ¬ pyStrip addr = "") (hdc : directCoords (pyStrip addr) = none)
    (hout : ∀ g v c, geocode g v = .ok (some c) → ¬ inVolgogradBox c) :
    (address_to_coords geocode (some addr) (some "Volgograd, Russia")
        = ⟨none, geoSchedule (buildVariants (pyStrip addr) (some "Volgograd, Russia"))⟩)
    ∧ (geoSchedule (buildVariants (pyStrip addr) (some "Volgograd, Russia"))).length = 8
    ∧ (∀ c city, city_bounds.find?
          (fun b => substrOf b.key.data (pyStrip (pyLower city)).data) = none →
        validate_coords_in_city c city = true) := by
  refine ⟨?_, by rfl, ?_⟩
  · simp only [address_to_coords, if_neg hne, hdc]
    apply geoLoop_exhausts
    intro g v c _ hg
    have hnotbox := hout g v c hg
    have hval : validateFor (some "Volgograd, Russia") c
        = validate_coords_in_city c "Volgograd" := rfl
    rw [hval]
    cases hvc : validate_coords_in_city c "Volgograd" with
    | false => rfl
    | true => exact absurd ((validate_volgograd_iff c).mp hvc) hnotbox
  · intro c city hfind
    simp only [validate_coords_in_city]
    rw [hfind]

/-- A geocoder that always returns Moscow-area coordinates (outside the
Volgograd box). -/
def geoMoscow : String → String → Except String (Option Coord) :=
  fun _ _ => .ok (some (55, 37))

/-- C6 witness: a non-coordinate address and a provider that always answers with
out-of-box coordinates; every one of the 8 attempts is made and the call returns
`None`. -/
theorem volgograd_out_of_bounds_witness :
    (address_to_coords geoMoscow (some "Some Street") (some "Volgograd, Russia")
        = ⟨none, geoSchedule (buildVariants (pyStrip "Some Street") (some "Volgograd, Russia"))⟩)
    ∧ (geoSchedule (buildVariants (pyStrip "Some Street") (some "Volgograd, Russia"))).length = 8
    ∧ (∀ c city, city_bounds.find?
          (fun b => substrOf b.key.data (pyStrip (pyLower city)).data) = none →
        validate_coords_in_city c city = true) :=
  volgograd_out_of_bounds_rejected geoMoscow "Some Street" (by decide) (by rfl)
    (fun g v c h => by
      have h2 : some ((55 : ℚ), (37 : ℚ)) = some c := Except.ok.inj h
      rw [← Option.some.inj h2]
      norm_num [inVolgogradBox])

end GraphService
